import Mathlib

/-!
Shallow embedding of the MicroMart backend (Django/DRF) cart, order and
authentication logic, translated from:
  - `store/models.py`   (Product, Cart, CartItem, Order, OrderItem)
  - `store/views.py`    (CartViewSet, OrderViewSet)
  - `store/serializers.py` (AdjustCartItemSerializer validation)
  - `authentication/serializers.py` (RegistrationSerializer, CustomTokenObtainPairSerializer)
  - `authentication/views.py` (UserRegistrationViewSet)

Modelling conventions:
  - The relational database is a `DBState` record of lists of rows.
  - `DecimalField` columns have `decimal_places=2`, so their values are exactly
    the integer multiples of 0.01; they are embedded as `Int` numbers of cents
    (e.g. a price of 1200.00 is the integer 120000). Sums and integer multiples
    of such values are computed exactly under this scaling.
  - `IntegerField` columns are `Int` (Django validators such as
    `MinValueValidator(1)` are NOT run on `.save()`/`get_or_create`, so the
    column itself can hold any integer; validators only act through
    serializer/form validation, which is modelled where the views invoke it).
  - Each HTTP endpoint is a pure function `DBState → args → result`, where the
    result carries the HTTP status, the serialized payload where a claim needs
    it, and the post state. `transaction.atomic` is modelled by running the
    transaction body in `Except` and restoring the pre-state on an exception
    (`.serverError` paths); early `return Response(...)` inside an atomic block
    commits, but such paths perform no writes before returning.
-/

/-- HTTP status category of a response, as produced by the DRF views. -/
inductive ApiResult where
  | ok            -- 200
  | created       -- 201
  | noContent     -- 204
  | badRequest    -- 400
  | notFound      -- 404
  | serverError   -- 500: an uncaught exception (rolls back an atomic block)
deriving DecidableEq, Repr

/-- `store.models.Product`: id (pk), name, price (decimal), stock (integer). -/
structure Product where
  id : Nat
  name : String
  price : Int
  stock : Int
deriving DecidableEq, Repr

/-- `store.models.CartItem`: a row (cart FK, product FK, quantity).
Carts are keyed 1:1 by user, so the cart FK is embedded as the owning user id. -/
structure CartItem where
  cartUser : Nat
  productId : Nat
  quantity : Int
deriving DecidableEq, Repr

/-- `store.models.Order`: id (pk), user FK, total_amount (decimal), status. -/
structure Order where
  id : Nat
  userId : Nat
  total_amount : Int
  status : String
deriving DecidableEq, Repr

/-- `store.models.OrderItem`: order FK, nullable product FK, plus the
name/price snapshots taken at order time. -/
structure OrderItem where
  orderId : Nat
  productId : Option Nat
  product_name : String
  quantity : Int
  price_at_order : Int
deriving DecidableEq, Repr

/-- `authentication.models.User`: the fields the embedded logic reads. -/
structure UserRec where
  id : Nat
  username : String
  email : String
deriving DecidableEq, Repr

/-- The database: product, cart, cart-item, order, order-item and user rows.
`carts` is the list of user ids owning a Cart row (Cart is 1:1 with User).
`nextOrderId`/`nextUserId` model the autoincrementing primary keys. -/
structure DBState where
  products : List Product
  carts : List Nat
  cartItems : List CartItem
  orders : List Order
  orderItems : List OrderItem
  users : List UserRec
  nextOrderId : Nat
  nextUserId : Nat
deriving DecidableEq, Repr

/-- `Product.objects.get(id=product_id)` / FK dereference: first row with the id. -/
def lookupProduct (ps : List Product) (pid : Nat) : Option Product :=
  ps.find? (fun p => p.id == pid)

/-- `product.save()`: write the row back under its primary key. -/
def updateProduct (ps : List Product) (p' : Product) : List Product :=
  ps.map (fun q => if q.id == p'.id then p' else q)

/-- `CartItem.objects.(get|filter)(cart=cart, product_id=product_id)`. -/
def findCartItem (items : List CartItem) (u pid : Nat) : Option CartItem :=
  items.find? (fun ci => ci.cartUser == u && ci.productId == pid)

/-- `cart_item.quantity = q; cart_item.save()`. -/
def setCartItemQuantity (items : List CartItem) (u pid : Nat) (q : Int) : List CartItem :=
  items.map (fun ci =>
    if ci.cartUser == u && ci.productId == pid then { ci with quantity := q } else ci)

/-- `cart_item.delete()`. -/
def deleteCartItem (items : List CartItem) (u pid : Nat) : List CartItem :=
  items.filter (fun ci => !(ci.cartUser == u && ci.productId == pid))

/-- The rows of the authenticated user's cart: `cart.cart_items.all()`. -/
def userItems (s : DBState) (u : Nat) : List CartItem :=
  s.cartItems.filter (fun ci => ci.cartUser == u)

/-- `CartViewSet.get_cart`: `Cart.objects.filter(user=...).get_or_create(user=...)`.
Returns the state with the user's cart present (created when missing). -/
def get_cart (s : DBState) (u : Nat) : DBState :=
  if s.carts.contains u then s else { s with carts := s.carts ++ [u] }

/-- `CartItem.subtotal` (`models.py`): `self.quantity * self.product_id.price`.
The FK always resolves in the database (CASCADE delete); the `none` branch is
unreachable for well-formed states. -/
def subtotal (ps : List Product) (ci : CartItem) : Int :=
  match lookupProduct ps ci.productId with
  | some p => ci.quantity * p.price
  | none => 0

/-- One serialized cart item of `CartItemSerializer`: product_id, product_name,
product_price, quantity, subtotal. -/
structure CartViewItem where
  product_id : Nat
  product_name : String
  product_price : Int
  quantity : Int
  subtotal : Int
deriving DecidableEq, Repr

/-- Insert into a list sorted by `product_name` (the `CartItem.Meta.ordering`
`["product_id__name"]` applied by the queryset backing the serializer). -/
def insertByName (x : CartViewItem) : List CartViewItem → List CartViewItem
  | [] => [x]
  | y :: ys =>
    if y.product_name < x.product_name then y :: insertByName x ys else x :: y :: ys

/-- Sort serialized items by product name (`CartItem.Meta.ordering`). -/
def sortByName : List CartViewItem → List CartViewItem
  | [] => []
  | x :: xs => insertByName x (sortByName xs)

/-- `CartSerializer` output: nested items plus the `Cart.total_items` and
`Cart.total_amount` properties. -/
structure CartView where
  items : List CartViewItem
  total_items : Int
  total_amount : Int
deriving DecidableEq, Repr

/-- One item rendered by `CartItemSerializer` (FK resolved; `none` unreachable). -/
def renderCartItem (ps : List Product) (ci : CartItem) : CartViewItem :=
  match lookupProduct ps ci.productId with
  | some p => ⟨ci.productId, p.name, p.price, ci.quantity, ci.quantity * p.price⟩
  | none => ⟨ci.productId, "", 0, ci.quantity, 0⟩

/-- `CartSerializer(cart).data`: items ordered by product name, `total_items`
(`Sum("quantity")` with `or 0`), `total_amount` (sum of subtotals). -/
def cartView (s : DBState) (u : Nat) : CartView :=
  { items := sortByName ((userItems s u).map (renderCartItem s.products))
    total_items := ((userItems s u).map (fun ci => ci.quantity)).sum
    total_amount := ((userItems s u).map (subtotal s.products)).sum }

/-- Result of a cart endpoint: HTTP status, the serialized cart when the view
returns one, and the post state. -/
structure OpResult where
  status : ApiResult
  cart : Option CartView
  state : DBState
deriving DecidableEq, Repr

/-- `CartViewSet.retrieve` (`GET /cart`): get-or-create the cart, serialize it. -/
def retrieveCart (s : DBState) (u : Nat) : OpResult :=
  let s1 := get_cart s u
  ⟨.ok, some (cartView s1 u), s1⟩

/-- `CartViewSet.add_item` (`views.py` 89-129), for an integer request quantity:
product lookup (404 on miss), stock pre-check (400), get-or-create of the cart,
then `CartItem.objects.get_or_create` with `defaults={"quantity": quantity}`;
when the item already exists, re-check `existing + quantity` against stock (400,
no write) or save the incremented quantity; success serializes the refetched cart. -/
def add_item (s : DBState) (u : Nat) (product_id : Nat) (quantity : Int) : OpResult :=
  match lookupProduct s.products product_id with
  | none => ⟨.notFound, none, s⟩
  | some product =>
    if product.stock < quantity then ⟨.badRequest, none, s⟩
    else
      let s1 := get_cart s u
      match findCartItem s1.cartItems u product_id with
      | none =>
        let s2 := { s1 with cartItems := s1.cartItems ++ [⟨u, product_id, quantity⟩] }
        ⟨.ok, some (cartView s2 u), s2⟩
      | some cart_item =>
        let new_quantity := cart_item.quantity + quantity
        if product.stock < new_quantity then ⟨.badRequest, none, s1⟩
        else
          let s2 := { s1 with cartItems := setCartItemQuantity s1.cartItems u product_id new_quantity }
          ⟨.ok, some (cartView s2 u), s2⟩

/-- The `action` choice field of `AdjustCartItemSerializer`. -/
inductive AdjustAction where
  | increment
  | decrement
deriving DecidableEq, Repr

/-- `CartViewSet.adjust_item_quantity` (`views.py` 137-185).
`AdjustCartItemSerializer.is_valid(raise_exception=True)` rejects (400) a
`product_id` not naming an existing product (`PrimaryKeyRelatedField`) and a
`change_by < 1` (`min_value=1`). Then `get_cart`, `get_object_or_404(CartItem,...)`
(404 on miss), and the increment/decrement branches. `product` is
`cart_item.product_id`, i.e. the row found by the serializer lookup. -/
def adjust_item_quantity (s : DBState) (u : Nat) (product_id : Nat)
    (action : AdjustAction) (change_by : Int) : OpResult :=
  match lookupProduct s.products product_id with
  | none => ⟨.badRequest, none, s⟩
  | some product =>
    if change_by < 1 then ⟨.badRequest, none, s⟩
    else
      let s1 := get_cart s u
      match findCartItem s1.cartItems u product_id with
      | none => ⟨.notFound, none, s1⟩
      | some cart_item =>
        match action with
        | .increment =>
          let new_quantity := cart_item.quantity + change_by
          if product.stock < new_quantity then ⟨.badRequest, none, s1⟩
          else
            let s2 := { s1 with
              cartItems := setCartItemQuantity s1.cartItems u product_id new_quantity }
            ⟨.ok, some (cartView s2 u), s2⟩
        | .decrement =>
          let new_quantity := cart_item.quantity - change_by
          if new_quantity < 1 then
            -- decrementing to 0 or less removes the item
            let s2 := { s1 with cartItems := deleteCartItem s1.cartItems u product_id }
            ⟨.ok, some (cartView s2 u), s2⟩
          else
            let s2 := { s1 with
              cartItems := setCartItemQuantity s1.cartItems u product_id new_quantity }
            ⟨.ok, some (cartView s2 u), s2⟩

/-- `CartViewSet.remove_item` (`views.py` 193-214): `if not product_id` → 400
(a missing id, and also the Python-falsy id 0); `get_cart`; 404 when the cart
has no such item; otherwise delete it and serialize the refetched cart. -/
def remove_item (s : DBState) (u : Nat) (product_id : Option Nat) : OpResult :=
  match product_id with
  | none => ⟨.badRequest, none, s⟩
  | some pid =>
    if pid == 0 then ⟨.badRequest, none, s⟩
    else
      let s1 := get_cart s u
      match findCartItem s1.cartItems u pid with
      | none => ⟨.notFound, none, s1⟩
      | some _ =>
        let s2 := { s1 with cartItems := deleteCartItem s1.cartItems u pid }
        ⟨.ok, some (cartView s2 u), s2⟩

/-- `CartViewSet.clear_cart` (`views.py` 221-228): `cart.cart_items.all().delete()`,
204 No Content. -/
def clear_cart (s : DBState) (u : Nat) : OpResult :=
  let s1 := get_cart s u
  let s2 := { s1 with cartItems := s1.cartItems.filter (fun ci => !(ci.cartUser == u)) }
  ⟨.noContent, none, s2⟩

/-- `Product.reduce_stock` (`models.py` 25-30): raises `ValueError` when
`stock < quantity`, else decrements and saves. -/
def reduce_stock (p : Product) (quantity : Int) : Except String Product :=
  if p.stock < quantity then .error "Not enough stock available."
  else .ok { p with stock := p.stock - quantity }

/-- The stock pre-check loop of `OrderViewSet.create` (`views.py` 279-287):
first item with `product.stock < item.quantity` aborts with 400. A dangling
product FK cannot occur in the database (modelled as an uncaught exception). -/
def stockCheck (ps : List Product) : List CartItem → Except ApiResult Unit
  | [] => .ok ()
  | item :: rest =>
    match lookupProduct ps item.productId with
    | none => .error .serverError
    | some product =>
      if product.stock < item.quantity then .error .badRequest
      else stockCheck ps rest

/-- The order-item creation loop of `OrderViewSet.create` (`views.py` 294-302):
for each cart item, create the `OrderItem` snapshot from the current product row
and run `reduce_stock`; a `ValueError` escapes the atomic block (500, rollback). -/
def processItems (s : DBState) (oid : Nat) : List CartItem → Except ApiResult DBState
  | [] => .ok s
  | item :: rest =>
    match lookupProduct s.products item.productId with
    | none => .error .serverError
    | some product =>
      match reduce_stock product item.quantity with
      | .error _ => .error .serverError
      | .ok product' =>
        let s' := { s with
          orderItems := s.orderItems ++
            [⟨oid, some item.productId, product.name, item.quantity, product.price⟩]
          products := updateProduct s.products product' }
        processItems s' oid rest

/-- Result of `POST /orders`: HTTP status, created order id, post state. -/
structure CheckoutResult where
  status : ApiResult
  orderId : Option Nat
  state : DBState
deriving DecidableEq, Repr

/-- The body of the `transaction.atomic` block of `OrderViewSet.create`
(`views.py` 277-307): stock pre-check, `total_amount = sum(item.subtotal ...)`,
`Order.objects.create(user=..., total_amount=..., status="pending")`, the
order-item/stock loop, then `cart_items.delete()`. -/
def checkoutTxn (s : DBState) (u : Nat) (items : List CartItem) :
    Except ApiResult (DBState × Nat) :=
  match stockCheck s.products items with
  | .error e => .error e
  | .ok _ =>
    let total_amount := (items.map (subtotal s.products)).sum
    let oid := s.nextOrderId
    let s1 := { s with
      orders := s.orders ++ [⟨oid, u, total_amount, "pending"⟩]
      nextOrderId := oid + 1 }
    match processItems s1 oid items with
    | .error e => .error e
    | .ok s2 =>
      .ok ({ s2 with cartItems := s2.cartItems.filter (fun ci => !(ci.cartUser == u)) }, oid)

/-- `OrderViewSet.create` (`views.py` 265-307): `get_object_or_404(Cart, user=user)`,
400 on an empty cart, then the atomic block. An error return from inside the
block leaves the pre state: the 400 stock response returns before any write, and
an exception rolls the whole transaction back. -/
def checkout (s : DBState) (u : Nat) : CheckoutResult :=
  if s.carts.contains u then
    if (userItems s u).isEmpty then ⟨.badRequest, none, s⟩
    else
      match checkoutTxn s u (userItems s u) with
      | .ok (s', oid) => ⟨.created, some oid, s'⟩
      | .error e => ⟨e, none, s⟩
  else ⟨.notFound, none, s⟩

/-- Result of `POST /register`: HTTP status, new user id, post state. -/
structure RegisterResult where
  status : ApiResult
  userId : Option Nat
  state : DBState
deriving DecidableEq, Repr

/-- `UserRegistrationViewSet.create` (`authentication/views.py` 39-68) with
`RegistrationSerializer.validate` (`authentication/serializers.py` 45-59):
reject (400) a password/confirmation mismatch, an already-registered email, an
already-taken username; otherwise create the User, then
`Cart.objects.create(user=user)`, then issue tokens (no database effect on the
modelled rows) and return 201. -/
def register (s : DBState) (username email password confirm_password : String) :
    RegisterResult :=
  if password != confirm_password then ⟨.badRequest, none, s⟩
  else if s.users.any (fun usr => usr.email == email) then ⟨.badRequest, none, s⟩
  else if s.users.any (fun usr => usr.username == username) then ⟨.badRequest, none, s⟩
  else
    let uid := s.nextUserId
    let s1 := { s with
      users := s.users ++ [(⟨uid, username, email⟩ : UserRec)]
      nextUserId := uid + 1 }
    let s2 := { s1 with carts := s1.carts ++ [uid] }
    ⟨.created, some uid, s2⟩

/-- Python truthiness of an optional string field value: `None` and `""` are
falsy. (DRF field validation already rejects blank values for these fields, so
reachable inputs are `none` or a non-empty string.) -/
def pyTruthy : Option String → Bool
  | none => false
  | some str => !(str == "")

/-- Outcome of the identity-field gate at the top of
`CustomTokenObtainPairSerializer.validate` (`authentication/serializers.py`
118-130): a `ValidationError`, or proceeding to credential checking with the
given username or email. -/
inductive LoginGate where
  | validationError
  | proceedUsername (u : String)
  | proceedEmail (e : String)
deriving DecidableEq, Repr

/-- The identity-field gate of `CustomTokenObtainPairSerializer.validate`:
`if not (username_input or email_input)` → error; `if username_input and
email_input` → error; then the username branch is preferred (`if username_input:
... elif email_input: ...`). -/
def loginIdentityGate (username email : Option String) : LoginGate :=
  if !(pyTruthy username || pyTruthy email) then .validationError
  else if pyTruthy username && pyTruthy email then .validationError
  else if pyTruthy username then .proceedUsername (username.getD "")
  else .proceedEmail (email.getD "")

/-- Database well-formedness, as enforced by the schema: the
`unique_together ("cart", "product_id")` constraint on `CartItem`, the FK
constraint (a cart item's product row exists; `on_delete=CASCADE` removes
items of a deleted product), and `quantity ≥ 1` for rows written through the
validated paths. -/
def WF (s : DBState) : Prop :=
  (s.cartItems.map (fun ci => (ci.cartUser, ci.productId))).Nodup ∧
  (∀ ci ∈ s.cartItems, (lookupProduct s.products ci.productId).isSome = true) ∧
  (∀ ci ∈ s.cartItems, 1 ≤ ci.quantity)

instance (s : DBState) : Decidable (WF s) := by
  unfold WF
  infer_instance

/-- Decidable form of "the cart item's product exists and its quantity does not
exceed that product's current stock". -/
def stockOk (ps : List Product) (ci : CartItem) : Bool :=
  match lookupProduct ps ci.productId with
  | some p => !(p.stock < ci.quantity)
  | none => false

/-- The `OrderItem` snapshot that checkout records for a cart item, read off the
given product table (name and price at order time). -/
def snapshotItem (ps : List Product) (oid : Nat) (ci : CartItem) : OrderItem :=
  match lookupProduct ps ci.productId with
  | some p => ⟨oid, some ci.productId, p.name, ci.quantity, p.price⟩
  | none => ⟨oid, some ci.productId, "", ci.quantity, 0⟩

/-- The effect a successful checkout of user `u` has on the database: one new
pending order totalling the cart's subtotals, one order-item snapshot per cart
item, each ordered product's stock decremented by the ordered quantity, all
other products untouched, the user's cart items deleted, and every other table
unchanged. -/
def CheckoutEffects (s : DBState) (u : Nat) (s' : DBState) : Prop :=
  s'.orders = s.orders ++
    [⟨s.nextOrderId, u, ((userItems s u).map (subtotal s.products)).sum, "pending"⟩] ∧
  s'.orderItems = s.orderItems ++ (userItems s u).map (snapshotItem s.products s.nextOrderId) ∧
  (∀ i ∈ userItems s u, ∀ p, lookupProduct s.products i.productId = some p →
    lookupProduct s'.products i.productId = some { p with stock := p.stock - i.quantity }) ∧
  (∀ pid, pid ∉ (userItems s u).map CartItem.productId →
    lookupProduct s'.products pid = lookupProduct s.products pid) ∧
  s'.cartItems = s.cartItems.filter (fun ci => !(ci.cartUser == u)) ∧
  s'.carts = s.carts ∧
  s'.users = s.users ∧
  s'.nextOrderId = s.nextOrderId + 1

/-- Cart with Laptop (price 1200, stock 10, quantity 2) and Mouse (price 25,
stock 5, quantity 1) for user 0 — the worked example of the specification. -/
def laptopMouseState : DBState :=
  { products := [⟨1, "Laptop", 120000, 10⟩, ⟨2, "Mouse", 2500, 5⟩]
    carts := [0]
    cartItems := [⟨0, 1, 2⟩, ⟨0, 2, 1⟩]
    orders := []
    orderItems := []
    users := [⟨0, "alice", "alice@example.com"⟩]
    nextOrderId := 1
    nextUserId := 1 }

/-- A cart holding one unit of a product with stock 3, for the atomicity witness. -/
def smallCartState : DBState :=
  { products := [⟨1, "Pen", 200, 3⟩]
    carts := [0]
    cartItems := [⟨0, 1, 1⟩]
    orders := []
    orderItems := []
    users := [⟨0, "alice", "alice@example.com"⟩]
    nextOrderId := 1
    nextUserId := 1 }

/-- An empty cart next to a product with stock 5, for the add-item witness. -/
def emptyCartState : DBState :=
  { products := [⟨1, "Pen", 200, 5⟩]
    carts := [0]
    cartItems := []
    orders := []
    orderItems := []
    users := [⟨0, "alice", "alice@example.com"⟩]
    nextOrderId := 1
    nextUserId := 1 }

/-- A cart holding quantity 2 of a product with stock 10, used to exhibit the
unvalidated-quantity write of `add_item` and for the adjust-item witness. -/
def qtyTwoCartState : DBState :=
  { products := [⟨1, "Pen", 200, 10⟩]
    carts := [0]
    cartItems := [⟨0, 1, 2⟩]
    orders := []
    orderItems := []
    users := [⟨0, "alice", "alice@example.com"⟩]
    nextOrderId := 1
    nextUserId := 1 }

/-- A cart with no items, for the empty-cart checkout witness. -/
def bareCartState : DBState :=
  { products := [⟨1, "Pen", 200, 5⟩]
    carts := [0]
    cartItems := []
    orders := []
    orderItems := []
    users := [⟨0, "alice", "alice@example.com"⟩]
    nextOrderId := 1
    nextUserId := 1 }

/-- One registered user who already owns a cart, for the registration witness. -/
def oneUserState : DBState :=
  { products := []
    carts := [0]
    cartItems := []
    orders := []
    orderItems := []
    users := [⟨0, "alice", "alice@example.com"⟩]
    nextOrderId := 1
    nextUserId := 1 }

/-- A user with no cart row and an empty catalog: the state on which `add_item`
for a missing product returns 404 without creating a cart. -/
def cartlessUserState : DBState :=
  { products := []
    carts := []
    cartItems := []
    orders := []
    orderItems := []
    users := [⟨3, "bob", "bob@example.com"⟩]
    nextOrderId := 1
    nextUserId := 4 }

/-! ## Basic lemmas about the embedded primitives -/

lemma get_cart_products (s : DBState) (u : Nat) : (get_cart s u).products = s.products := by
  unfold get_cart; split <;> rfl

lemma get_cart_cartItems (s : DBState) (u : Nat) : (get_cart s u).cartItems = s.cartItems := by
  unfold get_cart; split <;> rfl

lemma get_cart_orders (s : DBState) (u : Nat) : (get_cart s u).orders = s.orders := by
  unfold get_cart; split <;> rfl

lemma findCartItem_mem {items : List CartItem} {u pid : Nat} {ci : CartItem}
    (h : findCartItem items u pid = some ci) : ci ∈ items :=
  List.mem_of_find?_eq_some h

lemma findCartItem_user_pid {items : List CartItem} {u pid : Nat} {ci : CartItem}
    (h : findCartItem items u pid = some ci) : ci.cartUser = u ∧ ci.productId = pid := by
  have hp := List.find?_some h
  simp only [Bool.and_eq_true, beq_iff_eq] at hp
  exact hp

lemma lookupProduct_id {ps : List Product} {pid : Nat} {p : Product}
    (h : lookupProduct ps pid = some p) : p.id = pid := by
  have hp := List.find?_some h
  simpa using hp

lemma lookupProduct_updateProduct_self {ps : List Product} {pid : Nat} {p p' : Product}
    (hp : lookupProduct ps pid = some p) (hid : p'.id = p.id) :
    lookupProduct (updateProduct ps p') pid = some p' := by
  have hpid : p.id = pid := lookupProduct_id hp
  induction ps with
  | nil => simp [lookupProduct] at hp
  | cons q ps ih =>
    by_cases hq : q.id = pid
    · have hfound : q = p := by
        simp only [lookupProduct, List.find?_cons, hq] at hp
        simpa using hp
      subst hfound
      simp [lookupProduct, updateProduct, List.find?_cons, hid, hpid]
    · have htail : lookupProduct ps pid = some p := by
        simp only [lookupProduct, List.find?_cons] at hp ⊢
        rw [show (q.id == pid) = false by simpa using hq] at hp
        exact hp
      have := ih htail
      simp only [lookupProduct, updateProduct, List.map_cons, List.find?_cons] at this ⊢
      by_cases hq' : q.id = p'.id
      · exfalso; exact hq (by rw [hq', hid, hpid])
      · rw [if_neg (by simpa using hq')]
        rw [show (q.id == pid) = false by simpa using hq]
        exact this

lemma lookupProduct_updateProduct_other {ps : List Product} {pid : Nat} {p' : Product}
    (h : p'.id ≠ pid) :
    lookupProduct (updateProduct ps p') pid = lookupProduct ps pid := by
  induction ps with
  | nil => rfl
  | cons q ps ih =>
    simp only [lookupProduct, updateProduct, List.map_cons, List.find?_cons] at ih ⊢
    by_cases hq : q.id = p'.id
    · rw [if_pos (by simpa using hq)]
      rw [show (p'.id == pid) = false by simpa using h]
      rw [show (q.id == pid) = false by simp [hq]; simpa using h]
      exact ih
    · rw [if_neg (by simpa using hq)]
      by_cases hqp : q.id = pid
      · rw [show (q.id == pid) = true by simpa using hqp]
      · rw [show (q.id == pid) = false by simpa using hqp]
        exact ih

/-! ## Lemmas about the checkout transaction body -/

lemma stockCheck_ok_of {ps : List Product} {items : List CartItem}
    (h : ∀ i ∈ items, ∃ p, lookupProduct ps i.productId = some p ∧ ¬ p.stock < i.quantity) :
    stockCheck ps items = .ok () := by
  induction items with
  | nil => rfl
  | cons i rest ih =>
    obtain ⟨p, hp, hs⟩ := h i (List.mem_cons_self i rest)
    simp only [stockCheck, hp, if_neg hs]
    exact ih (fun j hj => h j (List.mem_cons_of_mem i hj))

lemma stockCheck_ok_implies {ps : List Product} {items : List CartItem}
    (h : stockCheck ps items = .ok ()) :
    ∀ i ∈ items, ∃ p, lookupProduct ps i.productId = some p ∧ ¬ p.stock < i.quantity := by
  induction items with
  | nil => intro i hi; simp at hi
  | cons i rest ih =>
    intro j hj
    rcases List.mem_cons.mp hj with hj | hj
    · subst hj
      cases hp : lookupProduct ps j.productId with
      | none => simp [stockCheck, hp] at h
      | some p =>
        refine ⟨p, rfl, ?_⟩
        intro hs
        simp [stockCheck, hp, hs] at h
    · cases hp : lookupProduct ps i.productId with
      | none => simp [stockCheck, hp] at h
      | some p =>
        by_cases hs : p.stock < i.quantity
        · simp [stockCheck, hp, hs] at h
        · simp only [stockCheck, hp, if_neg hs] at h
          exact ih h j hj

lemma stockCheck_error_cases {ps : List Product} {items : List CartItem} {e : ApiResult}
    (h : stockCheck ps items = .error e) : e = .badRequest ∨ e = .serverError := by
  induction items with
  | nil => simp [stockCheck] at h
  | cons i rest ih =>
    cases hp : lookupProduct ps i.productId with
    | none => simp [stockCheck, hp] at h; right; exact h.symm
    | some p =>
      by_cases hs : p.stock < i.quantity
      · simp [stockCheck, hp, hs] at h; left; exact h.symm
      · simp only [stockCheck, hp, if_neg hs] at h
        exact ih h

lemma processItems_ok :
    ∀ (items : List CartItem) (s : DBState) (oid : Nat),
    (items.map CartItem.productId).Nodup →
    (∀ i ∈ items, ∃ p, lookupProduct s.products i.productId = some p ∧ ¬ p.stock < i.quantity) →
    ∃ s', processItems s oid items = .ok s' ∧
      s'.carts = s.carts ∧
      s'.cartItems = s.cartItems ∧
      s'.orders = s.orders ∧
      s'.users = s.users ∧
      s'.nextOrderId = s.nextOrderId ∧
      s'.nextUserId = s.nextUserId ∧
      s'.orderItems = s.orderItems ++ items.map (snapshotItem s.products oid) ∧
      (∀ i ∈ items, ∀ p, lookupProduct s.products i.productId = some p →
        lookupProduct s'.products i.productId = some { p with stock := p.stock - i.quantity }) ∧
      (∀ pid, pid ∉ items.map CartItem.productId →
        lookupProduct s'.products pid = lookupProduct s.products pid) := by
  intro items
  induction items with
  | nil =>
    intro s oid _ _
    refine ⟨s, rfl, rfl, rfl, rfl, rfl, rfl, rfl, by simp, by simp, fun _ _ => rfl⟩
  | cons i rest ih =>
    intro s oid hnd h
    obtain ⟨p, hp, hs⟩ := h i (List.mem_cons_self i rest)
    have hpid : p.id = i.productId := lookupProduct_id hp
    have hred : reduce_stock p i.quantity = .ok { p with stock := p.stock - i.quantity } := by
      simp [reduce_stock, if_neg hs]
    set p' : Product := { p with stock := p.stock - i.quantity } with hp'
    set s2 : DBState := { s with
      orderItems := s.orderItems ++ [⟨oid, some i.productId, p.name, i.quantity, p.price⟩]
      products := updateProduct s.products p' } with hs2
    have hstep : processItems s oid (i :: rest) = processItems s2 oid rest := by
      simp only [processItems, hp, hred]
    have hnd' : (i.productId :: rest.map CartItem.productId).Nodup := by simpa using hnd
    have hnotin : i.productId ∉ rest.map CartItem.productId := (List.nodup_cons.mp hnd').1
    have hndrest : (rest.map CartItem.productId).Nodup := (List.nodup_cons.mp hnd').2
    have hp'id : p'.id = i.productId := by simp [hp', hpid]
    have hlook2 : ∀ pid, pid ≠ i.productId →
        lookupProduct s2.products pid = lookupProduct s.products pid := by
      intro pid hne
      show lookupProduct (updateProduct s.products p') pid = _
      exact lookupProduct_updateProduct_other (by rw [hp'id]; exact fun hh => hne hh.symm)
    have hrest : ∀ j ∈ rest, ∃ q,
        lookupProduct s2.products j.productId = some q ∧ ¬ q.stock < j.quantity := by
      intro j hj
      obtain ⟨q, hq, hqs⟩ := h j (List.mem_cons_of_mem i hj)
      have hne : j.productId ≠ i.productId := by
        intro hh
        exact hnotin (hh ▸ List.mem_map_of_mem CartItem.productId hj)
      exact ⟨q, by rw [hlook2 j.productId hne]; exact hq, hqs⟩
    obtain ⟨s', heq, hc, hciq, ho, hu, hnoid, hnuid, hoi, heff, hother⟩ :=
      ih s2 oid hndrest hrest
    have hsnap : snapshotItem s.products oid i =
        ⟨oid, some i.productId, p.name, i.quantity, p.price⟩ := by
      simp [snapshotItem, hp]
    have hmapeq : rest.map (snapshotItem s2.products oid) =
        rest.map (snapshotItem s.products oid) := by
      apply List.map_congr_left
      intro j hj
      have hne : j.productId ≠ i.productId := by
        intro hh
        exact hnotin (hh ▸ List.mem_map_of_mem CartItem.productId hj)
      simp only [snapshotItem, hlook2 j.productId hne]
    refine ⟨s', by rw [hstep]; exact heq, ?_, ?_, ?_, ?_, ?_, ?_, ?_, ?_, ?_⟩
    · rw [hc, hs2]
    · rw [hciq, hs2]
    · rw [ho, hs2]
    · rw [hu, hs2]
    · rw [hnoid, hs2]
    · rw [hnuid, hs2]
    · rw [hoi, hmapeq, List.map_cons, hsnap]
      show (s.orderItems ++ [_]) ++ _ = _
      simp [List.append_assoc]
    · intro j hj q hq
      rcases List.mem_cons.mp hj with hj | hj
      · subst hj
        have hq' : q = p := by rw [hp] at hq; exact (Option.some.injEq _ _).mp hq.symm
        subst hq'
        rw [hother j.productId hnotin]
        show lookupProduct (updateProduct s.products p') j.productId = _
        exact lookupProduct_updateProduct_self hp rfl
      · have hne : j.productId ≠ i.productId := by
          intro hh
          exact hnotin (hh ▸ List.mem_map_of_mem CartItem.productId hj)
        exact heff j hj q (by rw [hlook2 j.productId hne]; exact hq)
    · intro pid hpid'
      have h1 : pid ≠ i.productId := by
        intro hh; exact hpid' (by rw [hh, List.map_cons]; exact List.mem_cons_self _ _)
      have h2 : pid ∉ rest.map CartItem.productId := by
        intro hh; exact hpid' (by rw [List.map_cons]; exact List.mem_cons_of_mem _ hh)
      rw [hother pid h2, hlook2 pid h1]

lemma stockOk_iff {ps : List Product} {ci : CartItem} :
    stockOk ps ci = true ↔
    ∃ p, lookupProduct ps ci.productId = some p ∧ ¬ p.stock < ci.quantity := by
  unfold stockOk
  cases hl : lookupProduct ps ci.productId with
  | none => simp
  | some p => simp

lemma filter_map_pid_nodup (l : List CartItem) (u : Nat)
    (h : (l.map (fun ci => (ci.cartUser, ci.productId))).Nodup) :
    ((l.filter (fun ci => ci.cartUser == u)).map CartItem.productId).Nodup := by
  induction l with
  | nil => simp
  | cons a l ih =>
    rw [List.map_cons, List.nodup_cons] at h
    by_cases ha : (a.cartUser == u) = true
    · rw [List.filter_cons, if_pos ha, List.map_cons, List.nodup_cons]
      refine ⟨?_, ih h.2⟩
      intro hmem
      obtain ⟨b, hb, hbe⟩ := List.mem_map.mp hmem
      have hbl : b ∈ l := List.mem_of_mem_filter hb
      have hbu : b.cartUser = u := by simpa using List.of_mem_filter hb
      apply h.1
      have hpair : (a.cartUser, a.productId) = (b.cartUser, b.productId) := by
        rw [hbu, hbe, show a.cartUser = u by simpa using ha]
      rw [hpair]
      exact List.mem_map_of_mem _ hbl
    · rw [List.filter_cons, if_neg ha]
      exact ih h.2

lemma userItems_pid_nodup {s : DBState} (u : Nat)
    (h : (s.cartItems.map (fun ci => (ci.cartUser, ci.productId))).Nodup) :
    ((userItems s u).map CartItem.productId).Nodup :=
  filter_map_pid_nodup s.cartItems u h

lemma checkout_success_helper (s : DBState) (u : Nat)
    (hnd : ((userItems s u).map CartItem.productId).Nodup)
    (hcart : s.carts.contains u = true)
    (hne : userItems s u ≠ [])
    (hstock : ∀ i ∈ userItems s u,
      ∃ p, lookupProduct s.products i.productId = some p ∧ ¬ p.stock < i.quantity) :
    (checkout s u).status = .created ∧
    (checkout s u).orderId = some s.nextOrderId ∧
    CheckoutEffects s u (checkout s u).state := by
  have hsc : stockCheck s.products (userItems s u) = .ok () := stockCheck_ok_of hstock
  set total : Int := ((userItems s u).map (subtotal s.products)).sum with htot
  set s1 : DBState := { s with
    orders := s.orders ++ [⟨s.nextOrderId, u, total, "pending"⟩]
    nextOrderId := s.nextOrderId + 1 } with hs1
  have hstock1 : ∀ i ∈ userItems s u,
      ∃ p, lookupProduct s1.products i.productId = some p ∧ ¬ p.stock < i.quantity := hstock
  obtain ⟨s2, heq, hc, hciq, ho, hu, hnoid, hnuid, hoi, heff, hother⟩ :=
    processItems_ok (userItems s u) s1 s.nextOrderId hnd hstock1
  have hempty : (userItems s u).isEmpty = false := by
    cases h : userItems s u with
    | nil => exact absurd h hne
    | cons a l => rfl
  have htxn : checkoutTxn s u (userItems s u) =
      .ok ({ s2 with cartItems := s2.cartItems.filter (fun ci => !(ci.cartUser == u)) },
           s.nextOrderId) := by
    unfold checkoutTxn
    rw [hsc]
    show (match processItems s1 s.nextOrderId (userItems s u) with
      | .error e => Except.error e
      | .ok s2 =>
        .ok ({ s2 with cartItems := s2.cartItems.filter (fun ci => !(ci.cartUser == u)) },
             s.nextOrderId)) = _
    rw [heq]
  have hck : checkout s u =
      ⟨.created, some s.nextOrderId,
       { s2 with cartItems := s2.cartItems.filter (fun ci => !(ci.cartUser == u)) }⟩ := by
    simp only [checkout, hcart, hempty, htxn, Bool.false_eq_true, if_false, if_true]
  rw [hck]
  refine ⟨rfl, rfl, ?_, ?_, ?_, ?_, ?_, ?_, ?_, ?_⟩
  · show s2.orders = _
    rw [ho, hs1]
  · show s2.orderItems = _
    rw [hoi, hs1]
  · exact heff
  · exact hother
  · show s2.cartItems.filter _ = _
    rw [hciq, hs1]
  · show s2.carts = _
    rw [hc, hs1]
  · show s2.users = _
    rw [hu, hs1]
  · show s2.nextOrderId = _
    rw [hnoid, hs1]

/-! ## Claim theorems -/

/-- C1: checkout is all-or-nothing. For every well-formed database state, a
single checkout call either creates the order with one order item per cart
item, decrements each referenced product's stock, and deletes every cart item
of the cart (`CheckoutEffects`), or — on any failure, including the defensive
`reduce_stock` guard — returns a non-201 response and leaves the whole
database exactly as it was. -/
theorem checkout_all_or_nothing (s : DBState) (u : Nat) (hwf : WF s) :
    ((checkout s u).status = .created ∧ (checkout s u).orderId = some s.nextOrderId ∧
      CheckoutEffects s u (checkout s u).state) ∨
    ((checkout s u).status ≠ .created ∧ (checkout s u).state = s) := by
  by_cases hcart : s.carts.contains u = true
  · by_cases hempty : userItems s u = []
    · right
      have hempty' : (userItems s u).isEmpty = true := by rw [hempty]; rfl
      have hck : checkout s u = ⟨.badRequest, none, s⟩ := by
        simp only [checkout, hcart, eq_self_iff_true, hempty', if_true]
      rw [hck]
      exact ⟨by simp, rfl⟩
    · by_cases hstock : ∀ i ∈ userItems s u,
          ∃ p, lookupProduct s.products i.productId = some p ∧ ¬ p.stock < i.quantity
      · left
        exact checkout_success_helper s u (userItems_pid_nodup u hwf.1) hcart hempty hstock
      · right
        have hnok : stockCheck s.products (userItems s u) ≠ .ok () := by
          intro h
          exact hstock (stockCheck_ok_implies h)
        cases hsc : stockCheck s.products (userItems s u) with
        | ok u' => cases u'; exact absurd hsc hnok
        | error e =>
          have he : e = .badRequest ∨ e = .serverError := stockCheck_error_cases hsc
          have htxn : checkoutTxn s u (userItems s u) = .error e := by
            unfold checkoutTxn
            rw [hsc]
          have hempty' : (userItems s u).isEmpty = false := by
            cases h : userItems s u with
            | nil => exact absurd h hempty
            | cons a l => rfl
          have hck : checkout s u = ⟨e, none, s⟩ := by
            simp only [checkout, hcart, hempty', htxn, Bool.false_eq_true, if_false, if_true]
          rw [hck]
          refine ⟨?_, rfl⟩
          rcases he with he | he <;> simp [he]
  · right
    have hf : s.carts.contains u = false := by simpa using hcart
    have hck : checkout s u = ⟨.notFound, none, s⟩ := by
      simp only [checkout, hf, Bool.false_eq_true, if_false]
    rw [hck]
    exact ⟨by simp, rfl⟩

/-- C1 witness: the atomicity disjunction instantiated at a concrete one-item cart. -/
theorem checkout_all_or_nothing_witness :
    ((checkout smallCartState 0).status = .created ∧
      (checkout smallCartState 0).orderId = some smallCartState.nextOrderId ∧
      CheckoutEffects smallCartState 0 (checkout smallCartState 0).state) ∨
    ((checkout smallCartState 0).status ≠ .created ∧
      (checkout smallCartState 0).state = smallCartState) :=
  checkout_all_or_nothing smallCartState 0 (by decide)

/-- C2: for every non-empty cart whose items all fit in current stock, checkout
succeeds with 201 and creates exactly one pending order totalling
Σ quantity × price, one order-item snapshot per cart product, decrements each
ordered product's stock by the ordered quantity, and empties the cart. -/
theorem checkout_sufficient_stock (s : DBState) (u : Nat) (hwf : WF s)
    (hcart : s.carts.contains u = true) (hne : userItems s u ≠ [])
    (hstock : ∀ i ∈ userItems s u, stockOk s.products i = true) :
    (checkout s u).status = .created ∧
    (checkout s u).orderId = some s.nextOrderId ∧
    (checkout s u).state.orders = s.orders ++
      [⟨s.nextOrderId, u, ((userItems s u).map (subtotal s.products)).sum, "pending"⟩] ∧
    (checkout s u).state.orderItems = s.orderItems ++
      (userItems s u).map (snapshotItem s.products s.nextOrderId) ∧
    (∀ i ∈ userItems s u, ∀ p, lookupProduct s.products i.productId = some p →
      lookupProduct (checkout s u).state.products i.productId =
        some { p with stock := p.stock - i.quantity }) ∧
    userItems (checkout s u).state u = [] := by
  have hstock' : ∀ i ∈ userItems s u,
      ∃ p, lookupProduct s.products i.productId = some p ∧ ¬ p.stock < i.quantity :=
    fun i hi => stockOk_iff.mp (hstock i hi)
  obtain ⟨h1, h2, ho, hoi, heff, hother, hci, hc, hu, hnoid⟩ :=
    checkout_success_helper s u (userItems_pid_nodup u hwf.1) hcart hne hstock'
  refine ⟨h1, h2, ho, hoi, heff, ?_⟩
  show ((checkout s u).state.cartItems).filter (fun ci => ci.cartUser == u) = []
  rw [hci, List.filter_filter]
  simp

/-- C2 witness: the specification's worked example. Laptop (price 1200, qty 2,
stock 10) and Mouse (price 25, qty 1, stock 5): total 2425.00 (242500 cents),
stocks 8 and 4,
cart emptied, single pending order. -/
theorem checkout_sufficient_stock_witness :
    (checkout laptopMouseState 0).status = .created ∧
    (checkout laptopMouseState 0).state.orders.map Order.total_amount = [(242500 : Int)] ∧
    (checkout laptopMouseState 0).state.orders.map Order.status = ["pending"] ∧
    lookupProduct (checkout laptopMouseState 0).state.products 1 =
      some ⟨1, "Laptop", 120000, 8⟩ ∧
    lookupProduct (checkout laptopMouseState 0).state.products 2 =
      some ⟨2, "Mouse", 2500, 4⟩ ∧
    userItems (checkout laptopMouseState 0).state 0 = [] :=
  ⟨(checkout_sufficient_stock laptopMouseState 0 (by decide) (by decide) (by decide)
      (by decide)).1,
   by decide, by decide, by decide, by decide,
   (checkout_sufficient_stock laptopMouseState 0 (by decide) (by decide) (by decide)
      (by decide)).2.2.2.2.2⟩

/-- C6: checkout on an existing cart with zero items always fails with 400 and
changes nothing (in particular it creates no order). -/
theorem checkout_empty_cart (s : DBState) (u : Nat)
    (hcart : s.carts.contains u = true) (hempty : userItems s u = []) :
    checkout s u = ⟨.badRequest, none, s⟩ := by
  have hempty' : (userItems s u).isEmpty = true := by rw [hempty]; rfl
  simp only [checkout, hcart, eq_self_iff_true, hempty', if_true]

/-- C6 witness: the empty-cart rejection at a concrete state. -/
theorem checkout_empty_cart_witness :
    checkout bareCartState 0 = ⟨.badRequest, none, bareCartState⟩ :=
  checkout_empty_cart bareCartState 0 (by decide) (by decide)

/-- C3: add item returns 404 for a missing product; for a product `p` with no
existing cart item it succeeds iff `quantity ≤ p.stock` and then appends a cart
item with exactly that quantity; for an existing item of quantity `q1` it
succeeds iff `q1 + quantity ≤ p.stock`, setting the quantity to `q1 + quantity`,
and on the insufficient-stock failure the stored rows are untouched; every
success responds with the serialized cart of the new state. -/
theorem add_item_spec (s : DBState) (u pid : Nat) (q : Int) (hwf : WF s) :
    (lookupProduct s.products pid = none →
      add_item s u pid q = ⟨.notFound, none, s⟩) ∧
    (∀ p, lookupProduct s.products pid = some p →
      (findCartItem s.cartItems u pid = none →
        ((add_item s u pid q).status = .ok ↔ q ≤ p.stock) ∧
        (q ≤ p.stock →
          (add_item s u pid q).state.cartItems = s.cartItems ++ [⟨u, pid, q⟩] ∧
          (add_item s u pid q).cart = some (cartView (add_item s u pid q).state u)) ∧
        (p.stock < q → (add_item s u pid q).state.cartItems = s.cartItems)) ∧
      (∀ item, findCartItem s.cartItems u pid = some item →
        ((add_item s u pid q).status = .ok ↔ item.quantity + q ≤ p.stock) ∧
        (item.quantity + q ≤ p.stock →
          (add_item s u pid q).state.cartItems =
            setCartItemQuantity s.cartItems u pid (item.quantity + q) ∧
          (add_item s u pid q).cart = some (cartView (add_item s u pid q).state u)) ∧
        (p.stock < item.quantity + q →
          (add_item s u pid q).state.cartItems = s.cartItems))) := by
  refine ⟨?_, ?_⟩
  · intro hn
    simp only [add_item, hn]
  · intro p hp
    refine ⟨?_, ?_⟩
    · intro hfind
      have hfind1 : findCartItem (get_cart s u).cartItems u pid = none := by
        rw [get_cart_cartItems]; exact hfind
      by_cases hq : p.stock < q
      · have hA : add_item s u pid q = ⟨.badRequest, none, s⟩ := by
          simp only [add_item, hp, if_pos hq]
        rw [hA]
        refine ⟨⟨fun h => ApiResult.noConfusion h, fun h => absurd hq (not_lt.mpr h)⟩,
          fun h => absurd hq (not_lt.mpr h), fun _ => rfl⟩
      · have hA : add_item s u pid q =
            ⟨.ok,
             some (cartView { get_cart s u with
               cartItems := (get_cart s u).cartItems ++ [⟨u, pid, q⟩] } u),
             { get_cart s u with
               cartItems := (get_cart s u).cartItems ++ [⟨u, pid, q⟩] }⟩ := by
          simp only [add_item, hp, if_neg hq, hfind1]
        rw [hA]
        refine ⟨by simp [not_lt.mp hq], fun _ => ⟨?_, rfl⟩, fun h => absurd h hq⟩
        show (get_cart s u).cartItems ++ [⟨u, pid, q⟩] = s.cartItems ++ [⟨u, pid, q⟩]
        rw [get_cart_cartItems]
    · intro item hfind
      have hfind1 : findCartItem (get_cart s u).cartItems u pid = some item := by
        rw [get_cart_cartItems]; exact hfind
      have hq1 : 1 ≤ item.quantity := hwf.2.2 item (findCartItem_mem hfind)
      by_cases hq : p.stock < q
      · have hA : add_item s u pid q = ⟨.badRequest, none, s⟩ := by
          simp only [add_item, hp, if_pos hq]
        rw [hA]
        have hns : ¬ item.quantity + q ≤ p.stock := by
          intro h
          exact absurd hq (not_lt.mpr (by omega))
        exact ⟨⟨fun h => ApiResult.noConfusion h, fun h => absurd h hns⟩,
          fun h => absurd h hns, fun _ => rfl⟩
      · by_cases hq2 : p.stock < item.quantity + q
        · have hA : add_item s u pid q = ⟨.badRequest, none, get_cart s u⟩ := by
            simp only [add_item, hp, if_neg hq, hfind1, if_pos hq2]
          rw [hA]
          refine ⟨⟨fun h => ApiResult.noConfusion h, fun h => absurd hq2 (not_lt.mpr h)⟩,
            fun h => absurd hq2 (not_lt.mpr h), fun _ => get_cart_cartItems s u⟩
        · have hA : add_item s u pid q =
              ⟨.ok,
               some (cartView { get_cart s u with
                 cartItems := setCartItemQuantity (get_cart s u).cartItems u pid
                   (item.quantity + q) } u),
               { get_cart s u with
                 cartItems := setCartItemQuantity (get_cart s u).cartItems u pid
                   (item.quantity + q) }⟩ := by
            simp only [add_item, hp, if_neg hq, hfind1, if_neg hq2]
          rw [hA]
          refine ⟨by simp [not_lt.mp hq2], fun _ => ⟨?_, rfl⟩, fun h => absurd h hq2⟩
          show setCartItemQuantity (get_cart s u).cartItems u pid (item.quantity + q) =
            setCartItemQuantity s.cartItems u pid (item.quantity + q)
          rw [get_cart_cartItems]

/-- C3 witness: adding 3 units of a stock-5 product to an empty cart succeeds
and stores exactly quantity 3. -/
theorem add_item_spec_witness :
    (add_item emptyCartState 0 1 3).status = .ok ∧
    (add_item emptyCartState 0 1 3).state.cartItems =
      emptyCartState.cartItems ++ [⟨0, 1, 3⟩] :=
  ⟨(((add_item_spec emptyCartState 0 1 3 (by decide)).2 ⟨1, "Pen", 200, 5⟩ rfl).1 rfl).1.mpr
      (by decide),
   ((((add_item_spec emptyCartState 0 1 3 (by decide)).2 ⟨1, "Pen", 200, 5⟩ rfl).1 rfl).2.1
      (by decide)).1⟩

/-- C4 exhibit: the claimed invariant "no CartItem with quantity < 1 after any
cart-mutating operation" fails on `add_item`, which never validates the
client-supplied quantity (the `MinValueValidator(1)` on `CartItem.quantity` is
not run on `get_or_create`/`save`). Adding quantity −2 to an existing item of
quantity 2 (stock 10) passes both stock guards (10 < −2 and 10 < 0 are false)
and succeeds, storing quantity 0. -/
theorem add_item_unvalidated_quantity :
    (add_item qtyTwoCartState 0 1 (-2)).status = .ok ∧
    ((add_item qtyTwoCartState 0 1 (-2)).state.cartItems.any
      (fun ci => ci.quantity < 1)) = true := by decide

lemma findCartItem_deleteCartItem (l : List CartItem) (u pid : Nat) :
    findCartItem (deleteCartItem l u pid) u pid = none := by
  apply List.find?_eq_none.mpr
  intro x hx
  have hm := List.of_mem_filter hx
  simp only [Bool.not_eq_true'] at hm
  simp [hm]

/-- C5: adjust item (with a valid product id and `change_by ≥ 1`) returns 404
when the cart has no item for the product; increment fails with 400 when
`quantity + change_by` exceeds stock (leaving the rows untouched) and otherwise
stores the incremented quantity; decrement deletes the item as a success (200)
when `quantity − change_by < 1` and otherwise stores the decremented quantity. -/
theorem adjust_item_quantity_spec (s : DBState) (u pid : Nat) (change_by : Int)
    (p : Product) (hp : lookupProduct s.products pid = some p) (hcb : 1 ≤ change_by) :
    (findCartItem s.cartItems u pid = none →
      ∀ a, (adjust_item_quantity s u pid a change_by).status = .notFound ∧
        (adjust_item_quantity s u pid a change_by).state.cartItems = s.cartItems) ∧
    (∀ item, findCartItem s.cartItems u pid = some item →
      ((p.stock < item.quantity + change_by →
         (adjust_item_quantity s u pid .increment change_by).status = .badRequest ∧
         (adjust_item_quantity s u pid .increment change_by).state.cartItems = s.cartItems) ∧
       (¬ p.stock < item.quantity + change_by →
         (adjust_item_quantity s u pid .increment change_by).status = .ok ∧
         (adjust_item_quantity s u pid .increment change_by).state.cartItems =
           setCartItemQuantity s.cartItems u pid (item.quantity + change_by))) ∧
      ((item.quantity - change_by < 1 →
         (adjust_item_quantity s u pid .decrement change_by).status = .ok ∧
         (adjust_item_quantity s u pid .decrement change_by).state.cartItems =
           deleteCartItem s.cartItems u pid ∧
         findCartItem
           (adjust_item_quantity s u pid .decrement change_by).state.cartItems u pid = none) ∧
       (¬ item.quantity - change_by < 1 →
         (adjust_item_quantity s u pid .decrement change_by).status = .ok ∧
         (adjust_item_quantity s u pid .decrement change_by).state.cartItems =
           setCartItemQuantity s.cartItems u pid (item.quantity - change_by)))) := by
  have hcb' : ¬ change_by < 1 := not_lt.mpr hcb
  refine ⟨?_, ?_⟩
  · intro hfind a
    have hfind1 : findCartItem (get_cart s u).cartItems u pid = none := by
      rw [get_cart_cartItems]; exact hfind
    have hA : adjust_item_quantity s u pid a change_by = ⟨.notFound, none, get_cart s u⟩ := by
      simp only [adjust_item_quantity, hp, if_neg hcb', hfind1]
    rw [hA]
    exact ⟨rfl, get_cart_cartItems s u⟩
  · intro item hfind
    have hfind1 : findCartItem (get_cart s u).cartItems u pid = some item := by
      rw [get_cart_cartItems]; exact hfind
    refine ⟨⟨?_, ?_⟩, ⟨?_, ?_⟩⟩
    · intro hlt
      have hA : adjust_item_quantity s u pid .increment change_by =
          ⟨.badRequest, none, get_cart s u⟩ := by
        simp only [adjust_item_quantity, hp, if_neg hcb', hfind1, if_pos hlt]
      rw [hA]
      exact ⟨rfl, get_cart_cartItems s u⟩
    · intro hge
      have hA : adjust_item_quantity s u pid .increment change_by =
          ⟨.ok,
           some (cartView { get_cart s u with
             cartItems := setCartItemQuantity (get_cart s u).cartItems u pid
               (item.quantity + change_by) } u),
           { get_cart s u with
             cartItems := setCartItemQuantity (get_cart s u).cartItems u pid
               (item.quantity + change_by) }⟩ := by
        simp only [adjust_item_quantity, hp, if_neg hcb', hfind1, if_neg hge]
      rw [hA]
      refine ⟨rfl, ?_⟩
      show setCartItemQuantity (get_cart s u).cartItems u pid (item.quantity + change_by) = _
      rw [get_cart_cartItems]
    · intro hlt
      have hA : adjust_item_quantity s u pid .decrement change_by =
          ⟨.ok,
           some (cartView { get_cart s u with
             cartItems := deleteCartItem (get_cart s u).cartItems u pid } u),
           { get_cart s u with
             cartItems := deleteCartItem (get_cart s u).cartItems u pid }⟩ := by
        simp only [adjust_item_quantity, hp, if_neg hcb', hfind1, if_pos hlt]
      rw [hA]
      refine ⟨rfl, ?_, ?_⟩
      · show deleteCartItem (get_cart s u).cartItems u pid = deleteCartItem s.cartItems u pid
        rw [get_cart_cartItems]
      · exact findCartItem_deleteCartItem _ u pid
    · intro hge
      have hA : adjust_item_quantity s u pid .decrement change_by =
          ⟨.ok,
           some (cartView { get_cart s u with
             cartItems := setCartItemQuantity (get_cart s u).cartItems u pid
               (item.quantity - change_by) } u),
           { get_cart s u with
             cartItems := setCartItemQuantity (get_cart s u).cartItems u pid
               (item.quantity - change_by) }⟩ := by
        simp only [adjust_item_quantity, hp, if_neg hcb', hfind1, if_neg hge]
      rw [hA]
      refine ⟨rfl, ?_⟩
      show setCartItemQuantity (get_cart s u).cartItems u pid (item.quantity - change_by) = _
      rw [get_cart_cartItems]

/-- C5 witness: on a cart item of quantity 2 (stock 10), increment by 1 stores 3,
and decrement by 2 deletes the item as a success. -/
theorem adjust_item_quantity_spec_witness :
    (adjust_item_quantity qtyTwoCartState 0 1 .increment 1).status = .ok ∧
    (adjust_item_quantity qtyTwoCartState 0 1 .decrement 2).status = .ok ∧
    findCartItem
      (adjust_item_quantity qtyTwoCartState 0 1 .decrement 2).state.cartItems 0 1 = none :=
  ⟨(((adjust_item_quantity_spec qtyTwoCartState 0 1 1 ⟨1, "Pen", 200, 10⟩ rfl
       (by decide)).2 ⟨0, 1, 2⟩ rfl).1.2 (by decide)).1,
   (((adjust_item_quantity_spec qtyTwoCartState 0 1 2 ⟨1, "Pen", 200, 10⟩ rfl
       (by decide)).2 ⟨0, 1, 2⟩ rfl).2.1 (by decide)).1,
   (((adjust_item_quantity_spec qtyTwoCartState 0 1 2 ⟨1, "Pen", 200, 10⟩ rfl
       (by decide)).2 ⟨0, 1, 2⟩ rfl).2.1 (by decide)).2.2⟩

/-- C7: no cart-mutating endpoint (add, adjust, remove, clear) ever writes a
product row — on every path, success or failure, the product table of the post
state is exactly the product table of the pre state. -/
theorem cart_mutations_preserve_products (s : DBState) (u pid : Nat) (q change_by : Int)
    (a : AdjustAction) (opid : Option Nat) :
    (add_item s u pid q).state.products = s.products ∧
    (adjust_item_quantity s u pid a change_by).state.products = s.products ∧
    (remove_item s u opid).state.products = s.products ∧
    (clear_cart s u).state.products = s.products := by
  refine ⟨?_, ?_, ?_, ?_⟩
  · unfold add_item get_cart
    repeat' split
    all_goals dsimp only
    repeat' split
    all_goals rfl
  · unfold adjust_item_quantity get_cart
    repeat' split
    all_goals dsimp only
    repeat' split
    all_goals rfl
  · unfold remove_item get_cart
    repeat' split
    all_goals dsimp only
    repeat' split
    all_goals rfl
  · unfold clear_cart get_cart
    repeat' split
    all_goals dsimp only

/-- C8: the login serializer rejects with a validation error exactly when both
or neither of the identity fields are present (given that present field values
are non-blank, which DRF field validation guarantees), and it proceeds to
credential checking only with exactly one of them. -/
theorem login_requires_exactly_one_identity (username email : Option String)
    (hu : ∀ x, username = some x → x ≠ "") (he : ∀ x, email = some x → x ≠ "") :
    (loginIdentityGate username email = .validationError ↔
      username.isSome = email.isSome) ∧
    (∀ x, loginIdentityGate username email = .proceedUsername x →
      username = some x ∧ email = none) ∧
    (∀ x, loginIdentityGate username email = .proceedEmail x →
      email = some x ∧ username = none) := by
  cases username with
  | none =>
    cases email with
    | none => simp [loginIdentityGate, pyTruthy]
    | some e =>
      have he' : ¬ (e == "") = true := by simpa using he e rfl
      simp [loginIdentityGate, pyTruthy, he']
  | some w =>
    have hw' : ¬ (w == "") = true := by simpa using hu w rfl
    cases email with
    | none => simp [loginIdentityGate, pyTruthy, hw']
    | some e =>
      have he' : ¬ (e == "") = true := by simpa using he e rfl
      simp [loginIdentityGate, pyTruthy, hw', he']

/-- C8 witness: a username-only login passes the identity gate. -/
theorem login_requires_exactly_one_identity_witness :
    loginIdentityGate (some "alice") none = .validationError ↔
      (Option.some "alice").isSome = (Option.none : Option String).isSome :=
  (login_requires_exactly_one_identity (some "alice") none
    (fun x hx => by cases hx; decide)
    (fun x hx => Option.noConfusion hx)).1

/-- C9: every successful (201) registration leaves exactly one cart row for the
newly created user, and that cart has zero cart items. -/
theorem register_creates_single_empty_cart (s : DBState) (un em pw cf : String)
    (hcw : ∀ c ∈ s.carts, c < s.nextUserId)
    (hci : ∀ ci ∈ s.cartItems, ci.cartUser ∈ s.carts) :
    (register s un em pw cf).status = .created →
    ∃ uid, (register s un em pw cf).userId = some uid ∧
      (register s un em pw cf).state.carts.count uid = 1 ∧
      userItems (register s un em pw cf).state uid = [] := by
  intro hst
  unfold register at hst ⊢
  by_cases h1 : (pw != cf) = true
  · rw [if_pos h1] at hst
    exact absurd hst (by simp)
  · rw [if_neg h1] at hst ⊢
    by_cases h2 : (s.users.any (fun usr => usr.email == em)) = true
    · rw [if_pos h2] at hst
      exact absurd hst (by simp)
    · rw [if_neg h2] at hst ⊢
      by_cases h3 : (s.users.any (fun usr => usr.username == un)) = true
      · rw [if_pos h3] at hst
        exact absurd hst (by simp)
      · rw [if_neg h3]
        refine ⟨s.nextUserId, rfl, ?_, ?_⟩
        · show (s.carts ++ [s.nextUserId]).count s.nextUserId = 1
          rw [List.count_append]
          have h0 : s.carts.count s.nextUserId = 0 := by
            apply List.count_eq_zero.mpr
            intro hmem
            exact absurd (hcw _ hmem) (lt_irrefl _)
          rw [h0]
          simp
        · show s.cartItems.filter (fun ci => ci.cartUser == s.nextUserId) = []
          apply List.filter_eq_nil_iff.mpr
          intro ci hmem
          have hlt := hcw _ (hci ci hmem)
          simp only [beq_iff_eq]
          exact Nat.ne_of_lt hlt

/-- C9 witness: registering a fresh user in a one-user database creates their
cart, exactly one and empty. -/
theorem register_creates_single_empty_cart_witness :
    (register oneUserState "bob" "bob@example.com" "pw" "pw").state.carts.count 1 = 1 ∧
    userItems (register oneUserState "bob" "bob@example.com" "pw" "pw").state 1 = [] := by
  obtain ⟨uid, h1, h2, h3⟩ :=
    register_creates_single_empty_cart oneUserState "bob" "bob@example.com" "pw" "pw"
      (by decide) (by decide) (by decide)
  have h4 : (register oneUserState "bob" "bob@example.com" "pw" "pw").userId = some 1 := by
    decide
  rw [h1] at h4
  have huid : uid = 1 := (Option.some.injEq _ _).mp h4
  rw [huid] at h2 h3
  exact ⟨h2, h3⟩

lemma get_cart_carts_count (s : DBState) (u : Nat) (h : s.carts.count u ≤ 1) :
    (get_cart s u).carts.count u = 1 := by
  unfold get_cart
  by_cases hc : s.carts.contains u = true
  · rw [if_pos hc]
    have hmem : u ∈ s.carts := by simpa using hc
    have h1 : 0 < s.carts.count u := List.count_pos_iff.mpr hmem
    omega
  · rw [if_neg hc]
    show (s.carts ++ [u]).count u = 1
    rw [List.count_append]
    have h0 : s.carts.count u = 0 := by
      apply List.count_eq_zero.mpr
      intro hmem
      exact hc (by simpa using hmem)
    rw [h0]
    simp

/-- C10 counterexample: `add_item` looks the product up *before* `get_cart`, so
for a user with no cart row, adding a nonexistent product returns 404 and
leaves the user still cartless — refuting "every cart endpoint silently
creates a cart, hence after any cart-endpoint call the caller has exactly one
cart". -/
theorem add_item_missing_product_leaves_cartless :
    (add_item cartlessUserState 3 7 1).status = .notFound ∧
    (add_item cartlessUserState 3 7 1).state.carts.count 3 = 0 := by decide

/-- C10 (amended): every cart endpoint get-or-creates the caller's cart once it
reaches the cart lookup: unconditionally for plain retrieval and clear-cart,
and for add/adjust/remove whenever the validation performed before the cart
lookup passes (product found and initial stock check for add; valid serializer
input for adjust; a product id that is present and nonzero for remove). After
such a call the caller has exactly one cart row. -/
theorem cart_endpoints_get_or_create (s : DBState) (u : Nat)
    (hcount : s.carts.count u ≤ 1) :
    (retrieveCart s u).state.carts.count u = 1 ∧
    (clear_cart s u).state.carts.count u = 1 ∧
    (∀ pid q p, lookupProduct s.products pid = some p → ¬ p.stock < q →
      (add_item s u pid q).state.carts.count u = 1) ∧
    (∀ pid a change_by, (lookupProduct s.products pid).isSome = true → ¬ change_by < 1 →
      (adjust_item_quantity s u pid a change_by).state.carts.count u = 1) ∧
    (∀ pid, (pid == 0) = false →
      (remove_item s u (some pid)).state.carts.count u = 1) := by
  have hgc := get_cart_carts_count s u hcount
  refine ⟨hgc, hgc, ?_, ?_, ?_⟩
  · intro pid q p hp hq
    cases hfind : findCartItem (get_cart s u).cartItems u pid with
    | none =>
      have hA : (add_item s u pid q).state =
          { get_cart s u with cartItems := (get_cart s u).cartItems ++ [⟨u, pid, q⟩] } := by
        simp only [add_item, hp, if_neg hq, hfind]
      rw [hA]
      exact hgc
    | some item =>
      by_cases hq2 : p.stock < item.quantity + q
      · have hA : (add_item s u pid q).state = get_cart s u := by
          simp only [add_item, hp, if_neg hq, hfind, if_pos hq2]
        rw [hA]
        exact hgc
      · have hA : (add_item s u pid q).state =
            { get_cart s u with cartItems :=
              setCartItemQuantity (get_cart s u).cartItems u pid (item.quantity + q) } := by
          simp only [add_item, hp, if_neg hq, hfind, if_neg hq2]
        rw [hA]
        exact hgc
  · intro pid a change_by hps hcb
    obtain ⟨p, hp⟩ := Option.isSome_iff_exists.mp hps
    cases hfind : findCartItem (get_cart s u).cartItems u pid with
    | none =>
      have hA : (adjust_item_quantity s u pid a change_by).state = get_cart s u := by
        simp only [adjust_item_quantity, hp, if_neg hcb, hfind]
      rw [hA]
      exact hgc
    | some item =>
      cases a with
      | increment =>
        by_cases hlt : p.stock < item.quantity + change_by
        · have hA : (adjust_item_quantity s u pid .increment change_by).state =
              get_cart s u := by
            simp only [adjust_item_quantity, hp, if_neg hcb, hfind, if_pos hlt]
          rw [hA]
          exact hgc
        · have hA : (adjust_item_quantity s u pid .increment change_by).state =
              { get_cart s u with cartItems := setCartItemQuantity (get_cart s u).cartItems u pid (item.quantity + change_by) } := by
            simp only [adjust_item_quantity, hp, if_neg hcb, hfind, if_neg hlt]
          rw [hA]
          exact hgc
      | decrement =>
        by_cases hlt : item.quantity - change_by < 1
        · have hA : (adjust_item_quantity s u pid .decrement change_by).state =
              { get_cart s u with
                cartItems := deleteCartItem (get_cart s u).cartItems u pid } := by
            simp only [adjust_item_quantity, hp, if_neg hcb, hfind, if_pos hlt]
          rw [hA]
          exact hgc
        · have hA : (adjust_item_quantity s u pid .decrement change_by).state =
              { get_cart s u with cartItems := setCartItemQuantity (get_cart s u).cartItems u pid (item.quantity - change_by) } := by
            simp only [adjust_item_quantity, hp, if_neg hcb, hfind, if_neg hlt]
          rw [hA]
          exact hgc
  · intro pid h0
    cases hfind : findCartItem (get_cart s u).cartItems u pid with
    | none =>
      have hA : (remove_item s u (some pid)).state = get_cart s u := by
        simp only [remove_item, h0, Bool.false_eq_true, if_false, hfind]
      rw [hA]
      exact hgc
    | some item =>
      have hA : (remove_item s u (some pid)).state =
          { get_cart s u with cartItems := deleteCartItem (get_cart s u).cartItems u pid } := by
        simp only [remove_item, h0, Bool.false_eq_true, if_false, hfind]
      rw [hA]
      exact hgc

/-- C10 (amended) witness: plain cart retrieval creates the missing cart for a
cartless user. -/
theorem cart_endpoints_get_or_create_witness :
    (retrieveCart cartlessUserState 3).state.carts.count 3 = 1 :=
  (cart_endpoints_get_or_create cartlessUserState 3 (by decide)).1
